import Mathlib

/-
  Verification of the MomentoV2 growth-simulation scripts.

  Shallow embedding of
    src/Docs/simulations/growth_simulation.py
    src/Docs/simulations/gtm_simulation.py
  Python ints are modelled as ℤ, Python floats as exact rationals ℚ,
  and the Python builtin int(x) applied to a float (truncation toward
  zero) as the function pyInt below.
-/

set_option autoImplicit false

namespace Momento

/-- Truncation toward zero of a rational, as the Python builtin int()
applied to a (here: exactly represented) float: the floor for
nonnegative arguments and the ceiling (written as a negated floor so
that the definition evaluates inside the kernel) otherwise. -/
def pyInt (x : ℚ) : ℤ := if 0 ≤ x then x.floor else -((-x).floor)

/-- Configuration parameters for the growth simulation
(dataclass SimulationConfig in growth_simulation.py, with the same
default values written as exact rationals). -/
structure SimulationConfig where
  initial_hosts : ℤ := 50
  events_per_host_per_month : ℚ := 4/5
  avg_attendees_per_event : ℤ := 8
  attendees_already_have_app : ℚ := 3/10
  post_reveal_upgrade_rate : ℚ := 1/4
  web_album_share_rate : ℚ := 7/10
  non_app_viewers_per_share : ℤ := 5
  web_viewer_download_rate : ℚ := 2/5
  download_to_install_rate : ℚ := 3/20
  new_install_becomes_host_rate : ℚ := 3/10
  host_monthly_retention : ℚ := 17/20
  premium_price_gbp : ℚ := 799/100

/-- Metrics for a single month of the simulation
(dataclass MonthlyMetrics in growth_simulation.py). -/
structure MonthlyMetrics where
  month : ℤ
  total_hosts : ℤ := 0
  active_hosts : ℤ := 0
  total_app_users : ℤ := 0
  events_created : ℤ := 0
  total_attendees : ℤ := 0
  new_app_installs_from_events : ℤ := 0
  premium_upgrades : ℤ := 0
  revenue_gbp : ℚ := 0
  cumulative_revenue_gbp : ℚ := 0
  web_albums_shared : ℤ := 0
  web_album_views : ℤ := 0
  web_downloads : ℤ := 0
  installs_from_web : ℤ := 0
  new_hosts_from_web : ℤ := 0
  conversion_rate : ℚ := 0
  viral_coefficient : ℚ := 0

/-- The running state threaded through the loop of run_simulation:
the four local accumulators total_hosts, active_hosts, total_app_users
and cumulative_revenue. -/
structure SimState where
  total_hosts : ℤ
  active_hosts : ℤ
  total_app_users : ℤ
  cumulative_revenue : ℚ

/-- The state entering month 1 (the initialisation block of
run_simulation). -/
def initState (config : SimulationConfig) : SimState :=
  { total_hosts := config.initial_hosts
    active_hosts := config.initial_hosts
    total_app_users := config.initial_hosts
    cumulative_revenue := 0 }

/-- One iteration of the month loop of run_simulation: from the state
entering the month, the MonthlyMetrics record appended for this month
and the state entering the next month. -/
def simStep (config : SimulationConfig) (month : ℤ) (st : SimState) :
    MonthlyMetrics × SimState :=
  let events_created := pyInt ((st.active_hosts : ℚ) * config.events_per_host_per_month)
  let total_attendees := events_created * config.avg_attendees_per_event
  let new_attendees_without_app :=
    pyInt ((total_attendees : ℚ) * (1 - config.attendees_already_have_app))
  let new_installs_from_events := pyInt ((new_attendees_without_app : ℚ) * (3/5))
  let premium_upgrades := pyInt ((events_created : ℚ) * config.post_reveal_upgrade_rate)
  let revenue : ℚ := (premium_upgrades : ℚ) * config.premium_price_gbp
  let cumulative_revenue := st.cumulative_revenue + revenue
  let web_albums_shared := pyInt ((premium_upgrades : ℚ) * config.web_album_share_rate)
  let web_album_views := web_albums_shared * config.non_app_viewers_per_share
  let web_downloads := pyInt ((web_album_views : ℚ) * config.web_viewer_download_rate)
  let installs_from_web := pyInt ((web_downloads : ℚ) * config.download_to_install_rate)
  let new_hosts_from_web :=
    pyInt ((installs_from_web : ℚ) * config.new_install_becomes_host_rate)
  let active_churned := pyInt ((st.active_hosts : ℚ) * config.host_monthly_retention)
  let new_hosts_from_events := pyInt ((new_installs_from_events : ℚ) * (1/5))
  let new_hosts := new_hosts_from_web + new_hosts_from_events
  let total_hosts := st.total_hosts + new_hosts
  let active_hosts := active_churned + new_hosts
  let total_app_users := st.total_app_users + new_installs_from_events + installs_from_web
  let conversion_rate : ℚ :=
    if 0 < events_created then (premium_upgrades : ℚ) / (events_created : ℚ) else 0
  let viral_coefficient : ℚ :=
    if 0 < active_hosts - new_hosts then
      (new_hosts : ℚ) / ((active_hosts - new_hosts : ℤ) : ℚ)
    else 0
  ({ month := month
     total_hosts := total_hosts
     active_hosts := active_hosts
     total_app_users := total_app_users
     events_created := events_created
     total_attendees := total_attendees
     new_app_installs_from_events := new_installs_from_events
     premium_upgrades := premium_upgrades
     revenue_gbp := revenue
     cumulative_revenue_gbp := cumulative_revenue
     web_albums_shared := web_albums_shared
     web_album_views := web_album_views
     web_downloads := web_downloads
     installs_from_web := installs_from_web
     new_hosts_from_web := new_hosts_from_web
     conversion_rate := conversion_rate
     viral_coefficient := viral_coefficient },
   { total_hosts := total_hosts
     active_hosts := active_hosts
     total_app_users := total_app_users
     cumulative_revenue := cumulative_revenue })

/-- The month loop of run_simulation, unrolled from a given state and
starting month index, for a given number of remaining iterations. -/
def runFrom (config : SimulationConfig) : SimState → ℤ → ℕ → List MonthlyMetrics
  | _, _, 0 => []
  | st, month, n + 1 =>
    let step := simStep config month st
    step.1 :: runFrom config step.2 (month + 1) n

/-- run_simulation(config, months) of growth_simulation.py: the loop
for month in range(1, months + 1) runs max(months, 0) times, i.e.
months.toNat times, with the month index starting at 1. -/
def run_simulation (config : SimulationConfig) (months : ℤ) : List MonthlyMetrics :=
  runFrom config (initState config) 1 months.toNat

/-- The running state entering month n + 1 (so stateAt config 0 is the
initial state). -/
def stateAt (config : SimulationConfig) : ℕ → SimState
  | 0 => initState config
  | n + 1 => (simStep config ((n : ℤ) + 1) (stateAt config n)).2

/-- Configuration for the GTM simulation
(dataclass GTMConfig in gtm_simulation.py, default values as exact
rationals). -/
structure GTMConfig where
  seed_users : ℤ := 50
  seed_events_per_user_per_month : ℚ := 6/5
  seed_avg_group_size : ℤ := 8
  seed_upgrade_rate : ℚ := 7/20
  hijack_attendees_per_rave : ℤ := 400
  hijack_raves_per_month : ℤ := 2
  hijack_app_install_rate : ℚ := 1/4
  hijack_upgrade_rate : ℚ := 0
  hijack_becomes_host_rate : ℚ := 1/20
  hijack_monthly_fee : ℚ := 0
  tiktok_monthly_installs_low : ℤ := 50
  tiktok_monthly_installs_mid : ℤ := 200
  tiktok_monthly_installs_high : ℤ := 1000
  tiktok_install_to_host_rate : ℚ := 3/20
  tiktok_upgrade_rate : ℚ := 1/5
  festival_attendees : ℤ := 5000
  festival_app_install_rate : ℚ := 1/10
  festival_becomes_host_rate : ℚ := 3/100
  festival_fee : ℚ := 0
  premium_price : ℚ := 799/100
  monthly_churn_rate : ℚ := 3/20
  events_per_host_per_month : ℚ := 3/5
  avg_group_size : ℤ := 6
  general_upgrade_rate : ℚ := 1/4
  web_share_rate : ℚ := 7/10
  web_viewers_per_share : ℤ := 5
  web_download_rate : ℚ := 2/5
  web_download_to_install : ℚ := 3/20
  web_install_to_host : ℚ := 1/4

/-- Data for a single month (dataclass MonthData in gtm_simulation.py). -/
structure MonthData where
  month : ℤ
  phase : String
  new_users_from_seed : ℤ := 0
  new_users_from_b2b : ℤ := 0
  new_users_from_tiktok : ℤ := 0
  new_users_from_festival : ℤ := 0
  total_users : ℤ := 0
  active_users : ℤ := 0
  events_created : ℤ := 0
  premium_upgrades : ℤ := 0
  revenue : ℚ := 0
  cumulative_revenue : ℚ := 0
  web_album_views : ℤ := 0
  installs_from_web : ℤ := 0

/-- The running state of run_gtm_simulation: the per-channel user
pools, the two host pools and the cumulative revenue. -/
structure GTMState where
  seed_users : ℤ
  b2b_users : ℤ
  tiktok_users : ℤ
  festival_users : ℤ
  web_loop_users : ℤ
  seed_hosts : ℤ
  organic_hosts : ℤ
  cumulative_revenue : ℚ

/-- All pools are empty before month 1 of run_gtm_simulation. -/
def initGTMState : GTMState :=
  { seed_users := 0, b2b_users := 0, tiktok_users := 0, festival_users := 0
    web_loop_users := 0, seed_hosts := 0, organic_hosts := 0, cumulative_revenue := 0 }

/-- One iteration of the month loop of run_gtm_simulation, with the
monthly TikTok install count already selected from the scenario (the
dict lookup happens once before the loop in the source). Returns the
MonthData record for this month and the state entering the next month.
The first tuple component of the phase block mirrors the phase string,
the next four the data.new_users_from_* assignments of the branch, the
last the pool updates of the branch. -/
def gtmStep (config : GTMConfig) (tiktok_installs : ℤ) (month : ℤ) (st : GTMState) :
    MonthData × GTMState :=
  let phaseBlock : String × ℤ × ℤ × ℤ × ℤ × GTMState :=
    if month ≤ 2 then
      if month = 1 then
        ("Seed (Friends)", config.seed_users, 0, 0, 0,
         { st with seed_users := config.seed_users, seed_hosts := config.seed_users })
      else
        ("Seed (Friends)", 0, 0, 0, 0, st)
    else if month ≤ 4 then
      let rave_installs :=
        pyInt (((config.hijack_attendees_per_rave * config.hijack_raves_per_month : ℤ) : ℚ) *
          config.hijack_app_install_rate)
      ("Hijack B2B", 0, rave_installs, 0, 0,
       { st with
          b2b_users := st.b2b_users + rave_installs
          organic_hosts := st.organic_hosts +
            pyInt ((rave_installs : ℚ) * config.hijack_becomes_host_rate) })
    else if month ≤ 6 then
      let ramp_factor : ℚ := if month = 5 then 1/2 else 1
      let monthly_tiktok := pyInt ((tiktok_installs : ℚ) * ramp_factor)
      ("TikTok/UGC", 0, 0, monthly_tiktok, 0,
       { st with
          tiktok_users := st.tiktok_users + monthly_tiktok
          organic_hosts := st.organic_hosts +
            pyInt ((monthly_tiktok : ℚ) * config.tiktok_install_to_host_rate) })
    else
      let st1 :=
        { st with
            tiktok_users := st.tiktok_users + tiktok_installs
            organic_hosts := st.organic_hosts +
              pyInt ((tiktok_installs : ℚ) * config.tiktok_install_to_host_rate) }
      if month = 7 then
        let festival_installs :=
          pyInt ((config.festival_attendees : ℚ) * config.festival_app_install_rate)
        ("Festival + TikTok", 0, 0, tiktok_installs, festival_installs,
         { st1 with
            festival_users := st1.festival_users + festival_installs
            organic_hosts := st1.organic_hosts +
              pyInt ((festival_installs : ℚ) * config.festival_becomes_host_rate) })
      else
        ("Festival + TikTok", 0, 0, tiktok_installs, 0, st1)
  let phase := phaseBlock.1
  let new_seed := phaseBlock.2.1
  let new_b2b0 := phaseBlock.2.2.1
  let new_tiktok := phaseBlock.2.2.2.1
  let new_festival := phaseBlock.2.2.2.2.1
  let st0 := phaseBlock.2.2.2.2.2
  let afterB2B : ℤ × GTMState :=
    if 4 < month then
      let partners : ℤ := if month ≤ 6 then 1 else 2
      let rave_installs :=
        pyInt (((config.hijack_attendees_per_rave * config.hijack_raves_per_month : ℤ) : ℚ) *
          config.hijack_app_install_rate * (partners : ℚ))
      (rave_installs,
       { st0 with
          b2b_users := st0.b2b_users + rave_installs
          organic_hosts := st0.organic_hosts +
            pyInt ((rave_installs : ℚ) * config.hijack_becomes_host_rate) })
    else
      (new_b2b0, st0)
  let new_b2b := afterB2B.1
  let st1 := afterB2B.2
  let seed_hosts := pyInt ((st1.seed_hosts : ℚ) * (1 - config.monthly_churn_rate * (1/2)))
  let organic_hosts0 := pyInt ((st1.organic_hosts : ℚ) * (1 - config.monthly_churn_rate))
  let seed_events := pyInt ((seed_hosts : ℚ) * config.seed_events_per_user_per_month)
  let organic_events := pyInt ((organic_hosts0 : ℚ) * config.events_per_host_per_month)
  let total_events := seed_events + organic_events
  let seed_upgrades := pyInt ((seed_events : ℚ) * config.seed_upgrade_rate)
  let organic_upgrades := pyInt ((organic_events : ℚ) * config.general_upgrade_rate)
  let total_upgrades := seed_upgrades + organic_upgrades
  let revenue : ℚ := (total_upgrades : ℚ) * config.premium_price
  let cumulative_revenue := st.cumulative_revenue + revenue
  let web_albums_shared := pyInt ((total_upgrades : ℚ) * config.web_share_rate)
  let web_views := web_albums_shared * config.web_viewers_per_share
  let web_downloads := pyInt ((web_views : ℚ) * config.web_download_rate)
  let web_installs := pyInt ((web_downloads : ℚ) * config.web_download_to_install)
  let web_new_hosts := pyInt ((web_installs : ℚ) * config.web_install_to_host)
  let web_loop_users := st1.web_loop_users + web_installs
  let organic_hosts := organic_hosts0 + web_new_hosts
  let total_users :=
    st1.seed_users + st1.b2b_users + st1.tiktok_users + st1.festival_users + web_loop_users
  let active_users := seed_hosts + organic_hosts +
    pyInt (((total_users - seed_hosts - organic_hosts : ℤ) : ℚ) * (3/10))
  ({ month := month
     phase := phase
     new_users_from_seed := new_seed
     new_users_from_b2b := new_b2b
     new_users_from_tiktok := new_tiktok
     new_users_from_festival := new_festival
     total_users := total_users
     active_users := active_users
     events_created := total_events
     premium_upgrades := total_upgrades
     revenue := revenue
     cumulative_revenue := cumulative_revenue
     web_album_views := web_views
     installs_from_web := web_installs },
   { seed_users := st1.seed_users
     b2b_users := st1.b2b_users
     tiktok_users := st1.tiktok_users
     festival_users := st1.festival_users
     web_loop_users := web_loop_users
     seed_hosts := seed_hosts
     organic_hosts := organic_hosts
     cumulative_revenue := cumulative_revenue })

/-- The month loop of run_gtm_simulation, unrolled from a given state
and starting month index for a given number of remaining iterations. -/
def gtmRunFrom (config : GTMConfig) (tiktok_installs : ℤ) :
    GTMState → ℤ → ℕ → List MonthData
  | _, _, 0 => []
  | st, month, n + 1 =>
    let step := gtmStep config tiktok_installs month st
    step.1 :: gtmRunFrom config tiktok_installs step.2 (month + 1) n

/-- The loop of run_gtm_simulation with the TikTok install count
passed directly (the body after the scenario dict lookup). -/
def gtmRun (config : GTMConfig) (months : ℤ) (tiktok_installs : ℤ) : List MonthData :=
  gtmRunFrom config tiktok_installs initGTMState 1 months.toNat

/-- The scenario dict lookup at the top of run_gtm_simulation: a
KeyError on any string other than the three keys is modelled as none. -/
def tiktokInstalls (config : GTMConfig) (tiktok_scenario : String) : Option ℤ :=
  if tiktok_scenario = "low" then some config.tiktok_monthly_installs_low
  else if tiktok_scenario = "mid" then some config.tiktok_monthly_installs_mid
  else if tiktok_scenario = "high" then some config.tiktok_monthly_installs_high
  else none

/-- run_gtm_simulation(config, months, tiktok_scenario) of
gtm_simulation.py: the dict lookup selects the monthly TikTok install
count (raising KeyError, modelled as none, for an unknown scenario),
then the month loop runs for month in range(1, months + 1). -/
def run_gtm_simulation (config : GTMConfig) (months : ℤ) (tiktok_scenario : String) :
    Option (List MonthData) :=
  (tiktokInstalls config tiktok_scenario).map (gtmRun config months)

/-- The GTM running state entering month n + 1. -/
def gtmStateAt (config : GTMConfig) (tiktok_installs : ℤ) : ℕ → GTMState
  | 0 => initGTMState
  | n + 1 => (gtmStep config tiktok_installs ((n : ℤ) + 1) (gtmStateAt config tiktok_installs n)).2

/-- The default SimulationConfig (every field at its dataclass default). -/
def baseConfig : SimulationConfig := {}

/-- The default GTMConfig (every field at its dataclass default). -/
def baseGTMConfig : GTMConfig := {}

lemma ratFloor_eq (x : ℚ) : x.floor = ⌊x⌋ :=
  (Rat.floor_def' x).trans Rat.floor_def.symm

lemma pyInt_zero : pyInt 0 = 0 := by simp [pyInt, ratFloor_eq]

lemma pyInt_eq_floor {x : ℚ} (h : 0 ≤ x) : pyInt x = ⌊x⌋ := by simp [pyInt, h, ratFloor_eq]

lemma pyInt_eq (x : ℚ) : pyInt x = if 0 ≤ x then ⌊x⌋ else -⌊-x⌋ := by
  rw [pyInt, ratFloor_eq, ratFloor_eq]

lemma run_simulation_one (c : SimulationConfig) :
    run_simulation c 1 = [(simStep c 1 (initState c)).1] := rfl

lemma run_simulation_two (c : SimulationConfig) :
    run_simulation c 2 =
      [(simStep c 1 (initState c)).1,
       (simStep c 2 (simStep c 1 (initState c)).2).1] := rfl

lemma pyInt_nonneg {x : ℚ} (h : 0 ≤ x) : 0 ≤ pyInt x := by
  rw [pyInt_eq_floor h]
  exact_mod_cast Int.le_floor.mpr (by exact_mod_cast h)

lemma pyInt_le_of_le {x : ℚ} {a : ℤ} (h0 : 0 ≤ x) (h : x ≤ (a : ℚ)) : pyInt x ≤ a := by
  rw [pyInt_eq_floor h0]
  exact (Int.floor_le_floor h).trans_eq (Int.floor_intCast a)

lemma pyInt_mul_nonneg {a : ℤ} {r : ℚ} (ha : 0 ≤ a) (hr : 0 ≤ r) :
    0 ≤ pyInt ((a : ℚ) * r) := pyInt_nonneg (mul_nonneg (by exact_mod_cast ha) hr)

lemma pyInt_mul_le {a : ℤ} {r : ℚ} (ha : 0 ≤ a) (hr0 : 0 ≤ r) (hr1 : r ≤ 1) :
    pyInt ((a : ℚ) * r) ≤ a := by
  refine pyInt_le_of_le (mul_nonneg (by exact_mod_cast ha) hr0) ?_
  calc (a : ℚ) * r ≤ (a : ℚ) * 1 := by
        exact mul_le_mul_of_nonneg_left hr1 (by exact_mod_cast ha)
    _ = (a : ℚ) := mul_one _

lemma runFrom_length (c : SimulationConfig) :
    ∀ (n : ℕ) (st : SimState) (month : ℤ), (runFrom c st month n).length = n := by
  intro n
  induction n with
  | zero => intro st month; rfl
  | succ n ih => intro st month; simpa [runFrom] using ih _ _

lemma run_simulation_length (c : SimulationConfig) (months : ℤ) :
    (run_simulation c months).length = months.toNat :=
  runFrom_length c _ _ _

lemma gtmRunFrom_length (c : GTMConfig) (ti : ℤ) :
    ∀ (n : ℕ) (st : GTMState) (month : ℤ), (gtmRunFrom c ti st month n).length = n := by
  intro n
  induction n with
  | zero => intro st month; rfl
  | succ n ih => intro st month; simpa [gtmRunFrom] using ih _ _

lemma gtmRun_length (c : GTMConfig) (months ti : ℤ) :
    (gtmRun c months ti).length = months.toNat :=
  gtmRunFrom_length c ti _ _ _

lemma runFrom_getElem (c : SimulationConfig) :
    ∀ (n k i : ℕ) (r : MonthlyMetrics),
      (runFrom c (stateAt c k) ((k : ℤ) + 1) n)[i]? = some r →
      r = (simStep c (((k + i : ℕ) : ℤ) + 1) (stateAt c (k + i))).1 := by
  intro n
  induction n with
  | zero => intro k i r h; simp [runFrom] at h
  | succ n ih =>
    intro k i r h
    rw [runFrom] at h
    match i with
    | 0 =>
      simp only [List.getElem?_cons_zero, Option.some.injEq] at h
      simpa using h.symm
    | i + 1 =>
      simp only [List.getElem?_cons_succ] at h
      have hst : (simStep c ((k : ℤ) + 1) (stateAt c k)).2 = stateAt c (k + 1) := by
        simp [stateAt]
      have hmo : (k : ℤ) + 1 + 1 = ((k + 1 : ℕ) : ℤ) + 1 := by push_cast; ring
      rw [hst, hmo] at h
      have := ih (k + 1) i r h
      have harith : k + 1 + i = k + (i + 1) := by omega
      rw [harith] at this
      exact this

lemma run_simulation_getElem (c : SimulationConfig) (months : ℤ) (i : ℕ)
    (r : MonthlyMetrics) (h : (run_simulation c months)[i]? = some r) :
    r = (simStep c ((i : ℤ) + 1) (stateAt c i)).1 := by
  have := runFrom_getElem c months.toNat 0 i r (by simpa [run_simulation, stateAt] using h)
  simpa using this

lemma gtmRunFrom_getElem (c : GTMConfig) (ti : ℤ) :
    ∀ (n k i : ℕ) (r : MonthData),
      (gtmRunFrom c ti (gtmStateAt c ti k) ((k : ℤ) + 1) n)[i]? = some r →
      r = (gtmStep c ti (((k + i : ℕ) : ℤ) + 1) (gtmStateAt c ti (k + i))).1 := by
  intro n
  induction n with
  | zero => intro k i r h; simp [gtmRunFrom] at h
  | succ n ih =>
    intro k i r h
    rw [gtmRunFrom] at h
    match i with
    | 0 =>
      simp only [List.getElem?_cons_zero, Option.some.injEq] at h
      simpa using h.symm
    | i + 1 =>
      simp only [List.getElem?_cons_succ] at h
      have hst : (gtmStep c ti ((k : ℤ) + 1) (gtmStateAt c ti k)).2 = gtmStateAt c ti (k + 1) := by
        simp [gtmStateAt]
      have hmo : (k : ℤ) + 1 + 1 = ((k + 1 : ℕ) : ℤ) + 1 := by push_cast; ring
      rw [hst, hmo] at h
      have := ih (k + 1) i r h
      have harith : k + 1 + i = k + (i + 1) := by omega
      rw [harith] at this
      exact this

lemma gtmRun_getElem (c : GTMConfig) (months ti : ℤ) (i : ℕ)
    (r : MonthData) (h : (gtmRun c months ti)[i]? = some r) :
    r = (gtmStep c ti ((i : ℤ) + 1) (gtmStateAt c ti i)).1 := by
  have := gtmRunFrom_getElem c ti months.toNat 0 i r (by simpa [gtmRun, gtmStateAt] using h)
  simpa using this

lemma run_gtm_simulation_eq (c : GTMConfig) (months : ℤ) (s : String)
    (l : List MonthData) (h : run_gtm_simulation c months s = some l) :
    ∃ ti, tiktokInstalls c s = some ti ∧ l = gtmRun c months ti := by
  unfold run_gtm_simulation at h
  cases hti : tiktokInstalls c s with
  | none => rw [hti] at h; simp at h
  | some ti =>
    rw [hti] at h
    simp only [Option.map_some', Option.some.injEq] at h
    exact ⟨ti, rfl, h.symm⟩

/-- C1. For every configuration and every integer month count, the
growth simulation returns a sequence of length months when
0 ≤ months and the empty sequence when months ≤ 0, and the record at
0-based index i has month field i + 1 (so the 1-based i-th record has
month i); all of this also holds for every sequence run_gtm_simulation
returns (it returns one for every valid scenario string). -/
theorem C1_sequence_shape (c : SimulationConfig) (g : GTMConfig) (months : ℤ) :
    (0 ≤ months → ((run_simulation c months).length : ℤ) = months) ∧
    (months ≤ 0 → run_simulation c months = []) ∧
    (∀ (i : ℕ) (r : MonthlyMetrics),
      (run_simulation c months)[i]? = some r → r.month = (i : ℤ) + 1) ∧
    (∀ (s : String) (l : List MonthData), run_gtm_simulation g months s = some l →
      (0 ≤ months → ((l.length : ℤ) = months)) ∧
      (months ≤ 0 → l = []) ∧
      (∀ (i : ℕ) (r : MonthData), l[i]? = some r → r.month = (i : ℤ) + 1)) := by
  refine ⟨?_, ?_, ?_, ?_⟩
  · intro h
    rw [run_simulation_length]
    exact_mod_cast Int.toNat_of_nonneg h
  · intro h
    have : months.toNat = 0 := Int.toNat_of_nonpos h
    rw [run_simulation, this]
    rfl
  · intro i r h
    rw [run_simulation_getElem c months i r h]
    rfl
  · intro s l h
    obtain ⟨ti, -, rfl⟩ := run_gtm_simulation_eq g months s l h
    refine ⟨?_, ?_, ?_⟩
    · intro h0
      rw [gtmRun_length]
      exact_mod_cast Int.toNat_of_nonneg h0
    · intro h0
      have : months.toNat = 0 := Int.toNat_of_nonpos h0
      rw [gtmRun, this]
      rfl
    · intro i r hr
      rw [gtmRun_getElem g months ti i r hr]
      rfl

lemma map_some_field {α β : Type} {o : Option α} {r : α} {f : α → β} {b : β}
    (h : o = some r) (hm : o.map f = some b) : f r = b := by
  rw [h] at hm
  simpa using hm

/-- The domain of configurations described by the data model of the
spec: rates lie in the interval from 0 to 1, counts and the price are
nonnegative. -/
structure ValidConfig (c : SimulationConfig) : Prop where
  initial_hosts_nonneg : 0 ≤ c.initial_hosts
  events_rate_nonneg : 0 ≤ c.events_per_host_per_month
  events_rate_le_one : c.events_per_host_per_month ≤ 1
  attendees_count_nonneg : 0 ≤ c.avg_attendees_per_event
  have_app_nonneg : 0 ≤ c.attendees_already_have_app
  have_app_le_one : c.attendees_already_have_app ≤ 1
  upgrade_rate_nonneg : 0 ≤ c.post_reveal_upgrade_rate
  upgrade_rate_le_one : c.post_reveal_upgrade_rate ≤ 1
  share_rate_nonneg : 0 ≤ c.web_album_share_rate
  share_rate_le_one : c.web_album_share_rate ≤ 1
  viewers_count_nonneg : 0 ≤ c.non_app_viewers_per_share
  download_rate_nonneg : 0 ≤ c.web_viewer_download_rate
  download_rate_le_one : c.web_viewer_download_rate ≤ 1
  install_rate_nonneg : 0 ≤ c.download_to_install_rate
  install_rate_le_one : c.download_to_install_rate ≤ 1
  becomes_host_nonneg : 0 ≤ c.new_install_becomes_host_rate
  becomes_host_le_one : c.new_install_becomes_host_rate ≤ 1
  retention_nonneg : 0 ≤ c.host_monthly_retention
  retention_le_one : c.host_monthly_retention ≤ 1
  price_nonneg : 0 ≤ c.premium_price_gbp

lemma validConfig_base : ValidConfig baseConfig := by
  constructor <;> norm_num [baseConfig]

lemma simStep_revenue_nonneg (c : SimulationConfig) (hc : ValidConfig c) (month : ℤ)
    (st : SimState) (h : 0 ≤ st.active_hosts) : 0 ≤ (simStep c month st).1.revenue_gbp := by
  have h1 := pyInt_mul_nonneg h hc.events_rate_nonneg
  have h2 := pyInt_mul_nonneg h1 hc.upgrade_rate_nonneg
  exact mul_nonneg (by exact_mod_cast h2) hc.price_nonneg

lemma simStep_active_nonneg (c : SimulationConfig) (hc : ValidConfig c) (month : ℤ)
    (st : SimState) (h : 0 ≤ st.active_hosts) : 0 ≤ (simStep c month st).2.active_hosts := by
  have hp1 : (0 : ℚ) ≤ 1 - c.attendees_already_have_app := by
    linarith [hc.have_app_le_one]
  have hev := pyInt_mul_nonneg h hc.events_rate_nonneg
  have hat := mul_nonneg hev hc.attendees_count_nonneg
  have hna := pyInt_mul_nonneg hat hp1
  have hni := pyInt_mul_nonneg hna (by norm_num : (0 : ℚ) ≤ 3/5)
  have hup := pyInt_mul_nonneg hev hc.upgrade_rate_nonneg
  have hsh := pyInt_mul_nonneg hup hc.share_rate_nonneg
  have hvw := mul_nonneg hsh hc.viewers_count_nonneg
  have hdl := pyInt_mul_nonneg hvw hc.download_rate_nonneg
  have hiw := pyInt_mul_nonneg hdl hc.install_rate_nonneg
  have hhw := pyInt_mul_nonneg hiw hc.becomes_host_nonneg
  have hhe := pyInt_mul_nonneg hni (by norm_num : (0 : ℚ) ≤ 1/5)
  have hch := pyInt_mul_nonneg h hc.retention_nonneg
  exact add_nonneg hch (add_nonneg hhw hhe)

lemma stateAt_active_nonneg (c : SimulationConfig) (hc : ValidConfig c) :
    ∀ n : ℕ, 0 ≤ (stateAt c n).active_hosts
  | 0 => hc.initial_hosts_nonneg
  | n + 1 => simStep_active_nonneg c hc _ _ (stateAt_active_nonneg c hc n)

lemma simStep_state_cum (c : SimulationConfig) (month : ℤ) (st : SimState) :
    (simStep c month st).2.cumulative_revenue =
      st.cumulative_revenue + (simStep c month st).1.revenue_gbp := rfl

lemma simStep_record_cum (c : SimulationConfig) (month : ℤ) (st : SimState) :
    (simStep c month st).1.cumulative_revenue_gbp =
      (simStep c month st).2.cumulative_revenue := rfl

/-- C2. The growth simulation is deterministic: equal inputs give
equal output sequences, and the record of each month is exactly the
value of the pure step function simStep applied to the configuration,
the 1-based month index and the running state (active hosts, total
hosts, total app users, cumulative revenue) entering that month, so
every field is a function of these alone and there is no hidden
randomness. -/
theorem C2_deterministic (c1 c2 : SimulationConfig) (m1 m2 : ℤ) :
    (c1 = c2 → m1 = m2 → run_simulation c1 m1 = run_simulation c2 m2) ∧
    (∀ (i : ℕ) (r : MonthlyMetrics), (run_simulation c1 m1)[i]? = some r →
      r = (simStep c1 ((i : ℤ) + 1) (stateAt c1 i)).1) := by
  constructor
  · intro hc hm
    rw [hc, hm]
  · intro i r h
    exact run_simulation_getElem c1 m1 i r h

/-- Witness for C2 at a concrete input: the default configuration and
two months. -/
theorem C2_deterministic_witness :
    run_simulation baseConfig 2 = run_simulation baseConfig 2 ∧
    (run_simulation baseConfig 2)[0]?.map MonthlyMetrics.active_hosts =
      some ((simStep baseConfig ((0 : ℤ) + 1) (stateAt baseConfig 0)).1.active_hosts) := by
  have h := C2_deterministic baseConfig baseConfig 2 2
  refine ⟨h.1 rfl rfl, ?_⟩
  have hlen : (run_simulation baseConfig 2).length = 2 := run_simulation_length _ _
  have h0 : 0 < (run_simulation baseConfig 2).length := by omega
  rw [List.getElem?_eq_getElem h0, Option.map_some']
  have := h.2 0 _ (List.getElem?_eq_getElem h0)
  rw [this]
  norm_num

/-- A configuration differing from the defaults only in the share
rate, chosen so that per-step truncation is observably different from
rounding and from truncating once at the end of the chain. -/
def chainConfig : SimulationConfig := { web_album_share_rate := 11/20 }

/-- C3. In every month the web-album chain is computed in the order
upgrades, shares, views, downloads, installs, new hosts, truncating
toward zero (pyInt) after each multiplicative step; and concretely
(share rate 11/20, month 1: 10 upgrades) the recorded shares value 5
differs from the rounded value 6, and the recorded downloads value 10
differs from the value 11 obtained by truncating only once at the end
of the upgrades-to-downloads prefix of the chain. -/
theorem C3_web_album_chain :
    (∀ (c : SimulationConfig) (months : ℤ) (i : ℕ) (r : MonthlyMetrics),
      (run_simulation c months)[i]? = some r →
        r.web_albums_shared = pyInt ((r.premium_upgrades : ℚ) * c.web_album_share_rate) ∧
        r.web_album_views = r.web_albums_shared * c.non_app_viewers_per_share ∧
        r.web_downloads = pyInt ((r.web_album_views : ℚ) * c.web_viewer_download_rate) ∧
        r.installs_from_web = pyInt ((r.web_downloads : ℚ) * c.download_to_install_rate) ∧
        r.new_hosts_from_web =
          pyInt ((r.installs_from_web : ℚ) * c.new_install_becomes_host_rate)) ∧
    (run_simulation chainConfig 1).map MonthlyMetrics.premium_upgrades = [10] ∧
    (run_simulation chainConfig 1).map MonthlyMetrics.web_albums_shared = [5] ∧
    (run_simulation chainConfig 1).map
      (fun r => ⌊(r.premium_upgrades : ℚ) * chainConfig.web_album_share_rate + 1/2⌋) = [6] ∧
    (run_simulation chainConfig 1).map MonthlyMetrics.web_downloads = [10] ∧
    (run_simulation chainConfig 1).map
      (fun r => pyInt ((r.premium_upgrades : ℚ) * chainConfig.web_album_share_rate *
        (chainConfig.non_app_viewers_per_share : ℚ) * chainConfig.web_viewer_download_rate)) =
      [11] := by
  refine ⟨?_, ?_, ?_, ?_, ?_, ?_⟩
  case refine_2 =>
    rw [run_simulation_one]
    norm_num [simStep, initState, chainConfig, pyInt_eq]
  case refine_3 =>
    rw [run_simulation_one]
    norm_num [simStep, initState, chainConfig, pyInt_eq]
  case refine_4 =>
    rw [run_simulation_one]
    norm_num [simStep, initState, chainConfig, pyInt_eq]
  case refine_5 =>
    rw [run_simulation_one]
    norm_num [simStep, initState, chainConfig, pyInt_eq]
  case refine_6 =>
    rw [run_simulation_one]
    norm_num [simStep, initState, chainConfig, pyInt_eq]
  intro c months i r h
  rw [run_simulation_getElem c months i r h]
  exact ⟨rfl, rfl, rfl, rfl, rfl⟩

/-- Witness for C3 at a concrete input: the default configuration,
month 1, where the chain gives 7 shares from 10 upgrades. -/
theorem C3_web_album_chain_witness :
    (run_simulation baseConfig 1)[0]?.map MonthlyMetrics.web_albums_shared = some 7 ∧
    (run_simulation baseConfig 1)[0]?.map
      (fun r => pyInt ((r.premium_upgrades : ℚ) * baseConfig.web_album_share_rate)) =
      some 7 := by
  have m0 : (run_simulation baseConfig 1)[0]?.map
      (fun r => pyInt ((r.premium_upgrades : ℚ) * baseConfig.web_album_share_rate)) =
      some 7 := by
    rw [run_simulation_one]
    norm_num [simStep, initState, baseConfig, pyInt_eq]
  refine ⟨?_, m0⟩
  cases h0 : (run_simulation baseConfig 1)[0]? with
  | none => rw [h0] at m0; simp at m0
  | some r =>
    have hch := (C3_web_album_chain.1 baseConfig 1 0 r h0).1
    have hval := map_some_field h0 m0
    rw [Option.map_some']
    rw [hch]
    exact congrArg some hval

/-- C4. Both guarded divisions of run_simulation follow the
yield-0-on-zero-denominator policy, stated on the record fields: the
conversion rate is upgrades divided by events exactly when events is
positive and 0 otherwise, and the viral coefficient is new hosts
divided by (active hosts minus new hosts) exactly when that
denominator is positive and 0 otherwise, where new hosts is the sum of
the web-loop hosts and the event-install hosts of the month; the
embedded function is total, so no input makes it fail. -/
theorem C4_zero_denominator_guards (c : SimulationConfig) (months : ℤ) (i : ℕ)
    (r : MonthlyMetrics) (h : (run_simulation c months)[i]? = some r) :
    r.conversion_rate =
      (if 0 < r.events_created then (r.premium_upgrades : ℚ) / (r.events_created : ℚ)
       else 0) ∧
    r.viral_coefficient =
      (if 0 < r.active_hosts -
          (r.new_hosts_from_web + pyInt ((r.new_app_installs_from_events : ℚ) * (1/5))) then
        ((r.new_hosts_from_web + pyInt ((r.new_app_installs_from_events : ℚ) * (1/5)) : ℤ) : ℚ) /
          ((r.active_hosts -
            (r.new_hosts_from_web + pyInt ((r.new_app_installs_from_events : ℚ) * (1/5))) : ℤ) : ℚ)
       else 0) := by
  rw [run_simulation_getElem c months i r h]
  exact ⟨rfl, rfl⟩

/-- A configuration with no hosts at all (used for C4 and C8). -/
def zeroConfig : SimulationConfig := { initial_hosts := 0 }

/-- Witness for C4 at concrete inputs: the default configuration hits
the division branch of the conversion rate, the zero-host
configuration hits both else branches. -/
theorem C4_zero_denominator_guards_witness :
    (run_simulation baseConfig 1)[0]?.map MonthlyMetrics.conversion_rate = some (1/4) ∧
    (run_simulation zeroConfig 1)[0]?.map MonthlyMetrics.conversion_rate = some 0 ∧
    (run_simulation zeroConfig 1)[0]?.map MonthlyMetrics.viral_coefficient = some 0 := by
  refine ⟨?_, ?_, ?_⟩
  · have mE : (run_simulation baseConfig 1)[0]?.map MonthlyMetrics.events_created =
        some 40 := by
      rw [run_simulation_one]
      norm_num [simStep, initState, baseConfig, pyInt_eq]
    have mP : (run_simulation baseConfig 1)[0]?.map MonthlyMetrics.premium_upgrades =
        some 10 := by
      rw [run_simulation_one]
      norm_num [simStep, initState, baseConfig, pyInt_eq]
    cases h0 : (run_simulation baseConfig 1)[0]? with
    | none => rw [h0] at mE; simp at mE
    | some r =>
      have hf := (C4_zero_denominator_guards baseConfig 1 0 r h0).1
      have hE := map_some_field h0 mE
      have hP := map_some_field h0 mP
      rw [Option.map_some']
      rw [hf, hE, hP]
      norm_num
  · have mE : (run_simulation zeroConfig 1)[0]?.map MonthlyMetrics.events_created =
        some 0 := by
      rw [run_simulation_one]
      norm_num [simStep, initState, zeroConfig, pyInt_eq]
    cases h0 : (run_simulation zeroConfig 1)[0]? with
    | none => rw [h0] at mE; simp at mE
    | some r =>
      have hf := (C4_zero_denominator_guards zeroConfig 1 0 r h0).1
      have hE := map_some_field h0 mE
      rw [Option.map_some']
      rw [hf, hE]
      norm_num
  · have mA : (run_simulation zeroConfig 1)[0]?.map MonthlyMetrics.active_hosts =
        some 0 := by
      rw [run_simulation_one]
      norm_num [simStep, initState, zeroConfig, pyInt_eq]
    have mW : (run_simulation zeroConfig 1)[0]?.map MonthlyMetrics.new_hosts_from_web =
        some 0 := by
      rw [run_simulation_one]
      norm_num [simStep, initState, zeroConfig, pyInt_eq]
    have mI : (run_simulation zeroConfig 1)[0]?.map
        MonthlyMetrics.new_app_installs_from_events = some 0 := by
      rw [run_simulation_one]
      norm_num [simStep, initState, zeroConfig, pyInt_eq]
    cases h0 : (run_simulation zeroConfig 1)[0]? with
    | none => rw [h0] at mA; simp at mA
    | some r =>
      have hf := (C4_zero_denominator_guards zeroConfig 1 0 r h0).2
      have hA := map_some_field h0 mA
      have hW := map_some_field h0 mW
      have hI := map_some_field h0 mI
      rw [Option.map_some']
      rw [hf, hA, hW, hI]
      norm_num [pyInt_zero]

/-- C5. For any configuration with 50 initial hosts, events rate 0.8,
upgrade rate 0.25 and price 7.99, and any positive month count, the
first record has 40 events, 10 premium upgrades and revenue 79.90. -/
theorem C5_month_one_values (c : SimulationConfig) (months : ℤ)
    (h1 : c.initial_hosts = 50) (h2 : c.events_per_host_per_month = 4/5)
    (h3 : c.post_reveal_upgrade_rate = 1/4) (h4 : c.premium_price_gbp = 799/100)
    (hm : 1 ≤ months) :
    (run_simulation c months)[0]?.map
      (fun r => (r.events_created, r.premium_upgrades, r.revenue_gbp)) =
    some (40, 10, 799/10) := by
  have hlen : (run_simulation c months).length = months.toNat := run_simulation_length _ _
  have h0 : 0 < (run_simulation c months).length := by
    rw [hlen]
    omega
  rw [List.getElem?_eq_getElem h0, Option.map_some']
  have hr := run_simulation_getElem c months 0 _ (List.getElem?_eq_getElem h0)
  rw [hr]
  have hev : (simStep c (((0 : ℕ) : ℤ) + 1) (stateAt c 0)).1.events_created = 40 := by
    show pyInt ((c.initial_hosts : ℚ) * c.events_per_host_per_month) = 40
    rw [h1, h2]
    norm_num [pyInt_eq]
  have hup : (simStep c (((0 : ℕ) : ℤ) + 1) (stateAt c 0)).1.premium_upgrades = 10 := by
    show pyInt ((pyInt ((c.initial_hosts : ℚ) * c.events_per_host_per_month) : ℚ) *
      c.post_reveal_upgrade_rate) = 10
    rw [h1, h2, h3]
    norm_num [pyInt_eq]
  have hrev : (simStep c (((0 : ℕ) : ℤ) + 1) (stateAt c 0)).1.revenue_gbp = 799/10 := by
    show ((pyInt ((pyInt ((c.initial_hosts : ℚ) * c.events_per_host_per_month) : ℚ) *
      c.post_reveal_upgrade_rate) : ℤ) : ℚ) * c.premium_price_gbp = 799/10
    rw [h1, h2, h3, h4]
    norm_num [pyInt_eq]
  rw [hev, hup, hrev]

/-- Witness for C5: the default configuration meets all the
hypotheses with months = 1. -/
theorem C5_month_one_values_witness :
    (run_simulation baseConfig 1)[0]?.map
      (fun r => (r.events_created, r.premium_upgrades, r.revenue_gbp)) =
    some (40, 10, 799/10) :=
  C5_month_one_values baseConfig 1 rfl rfl rfl rfl (by norm_num)

/-- Witness for C1 at concrete inputs: the default configurations,
month counts 3, 2 and -1, and the scenario string mid. -/
theorem C1_sequence_shape_witness :
    run_simulation baseConfig (-1) = [] ∧
    ((run_simulation baseConfig 3).length : ℤ) = 3 ∧
    (run_simulation baseConfig 3)[1]?.map MonthlyMetrics.month = some 2 ∧
    (run_gtm_simulation baseGTMConfig 2 "mid").map (fun l => (l.length : ℤ)) = some 2 := by
  have h3 := C1_sequence_shape baseConfig baseGTMConfig 3
  have hneg := C1_sequence_shape baseConfig baseGTMConfig (-1)
  have h2 := C1_sequence_shape baseConfig baseGTMConfig 2
  refine ⟨hneg.2.1 (by norm_num), h3.1 (by norm_num), ?_, ?_⟩
  · have hlen : (run_simulation baseConfig 3).length = 3 := by
      have := h3.1 (by norm_num)
      exact_mod_cast this
    have h1 : 1 < (run_simulation baseConfig 3).length := by omega
    rw [List.getElem?_eq_getElem h1]
    have := h3.2.2.1 1 _ (List.getElem?_eq_getElem h1)
    simp only [Option.map_some']
    rw [this]
    norm_num
  · have hg : run_gtm_simulation baseGTMConfig 2 "mid" =
        some (gtmRun baseGTMConfig 2 200) := rfl
    rw [hg]
    simp only [Option.map_some', Option.some.injEq]
    exact (h2.2.2.2 "mid" _ hg).1 (by norm_num)

/-- C6. Under the valid-configuration domain of the data model of the
spec (rates in the interval from 0 to 1, nonnegative counts and
price), cumulative revenue never decreases between consecutive records
of the growth simulation. -/
theorem C6_cumulative_revenue_monotone (c : SimulationConfig) (months : ℤ)
    (hc : ValidConfig c) (i : ℕ) (r1 r2 : MonthlyMetrics)
    (h1 : (run_simulation c months)[i]? = some r1)
    (h2 : (run_simulation c months)[i + 1]? = some r2) :
    r1.cumulative_revenue_gbp ≤ r2.cumulative_revenue_gbp := by
  have e1 : r1.cumulative_revenue_gbp = (stateAt c (i + 1)).cumulative_revenue := by
    rw [run_simulation_getElem c months i r1 h1]
    rfl
  have e2 : r2.cumulative_revenue_gbp =
      (stateAt c (i + 1)).cumulative_revenue +
        (simStep c (((i + 1 : ℕ) : ℤ) + 1) (stateAt c (i + 1))).1.revenue_gbp := by
    rw [run_simulation_getElem c months (i + 1) r2 h2]
    rfl
  have hrev := simStep_revenue_nonneg c hc (((i + 1 : ℕ) : ℤ) + 1) (stateAt c (i + 1))
    (stateAt_active_nonneg c hc (i + 1))
  rw [e1, e2]
  linarith

/-- Witness for C6: the default configuration is valid and its first
two cumulative revenues are 79.90 and 183.77. -/
theorem C6_cumulative_revenue_monotone_witness :
    (run_simulation baseConfig 2)[0]?.map MonthlyMetrics.cumulative_revenue_gbp =
      some (799/10) ∧
    (run_simulation baseConfig 2)[1]?.map MonthlyMetrics.cumulative_revenue_gbp =
      some (18377/100) ∧
    (799/10 : ℚ) ≤ 18377/100 := by
  have m0 : (run_simulation baseConfig 2)[0]?.map MonthlyMetrics.cumulative_revenue_gbp =
      some (799/10) := by
    rw [run_simulation_two]
    norm_num [simStep, initState, baseConfig, pyInt_eq]
  have m1 : (run_simulation baseConfig 2)[1]?.map MonthlyMetrics.cumulative_revenue_gbp =
      some (18377/100) := by
    rw [run_simulation_two]
    norm_num [simStep, initState, baseConfig, pyInt_eq]
  refine ⟨m0, m1, ?_⟩
  cases h0 : (run_simulation baseConfig 2)[0]? with
  | none => rw [h0] at m0; simp at m0
  | some r1 =>
    cases h1 : (run_simulation baseConfig 2)[1]? with
    | none => rw [h1] at m1; simp at m1
    | some r2 =>
      have hle := C6_cumulative_revenue_monotone baseConfig 2 validConfig_base 0 r1 r2 h0 h1
      rw [← map_some_field h0 m0, ← map_some_field h1 m1]
      exact hle

/-- A valid configuration whose event rate (1.0) exceeds its retention
rate (0.5), with the upgrade channel switched off. -/
def decayConfig : SimulationConfig :=
  { events_per_host_per_month := 1, host_monthly_retention := 1/2,
    post_reveal_upgrade_rate := 0, attendees_already_have_app := 1 }

/-- Counterexample to C7 as stated: with event rate 1 and retention
0.5, month 1 creates 50 events but the recorded active_hosts field
(already churned to 25) is smaller, so events_created is not bounded
by the active_hosts field of the same record. -/
theorem C7_counterexample :
    ¬ (∀ (c : SimulationConfig) (months : ℤ) (i : ℕ) (r : MonthlyMetrics),
        (run_simulation c months)[i]? = some r →
        0 ≤ r.events_created ∧ r.events_created ≤ r.active_hosts) := by
  intro hall
  have hm : (run_simulation decayConfig 1)[0]?.map
      (fun r => (r.events_created, r.active_hosts)) = some (50, 25) := by
    rw [run_simulation_one]
    norm_num [simStep, initState, decayConfig, pyInt_eq]
  cases h0 : (run_simulation decayConfig 1)[0]? with
  | none => rw [h0] at hm; simp at hm
  | some r =>
    have hp := map_some_field h0 hm
    have hb := (hall decayConfig 1 0 r h0).2
    have he : r.events_created = 50 := by
      have := congrArg Prod.fst hp
      simpa using this
    have ha : r.active_hosts = 25 := by
      have := congrArg Prod.snd hp
      simpa using this
    rw [he, ha] at hb
    norm_num at hb

/-- C7 amended. For every valid configuration (rates in the interval
from 0 to 1, nonnegative counts), events_created of every record is
nonnegative and bounded by the active population entering that month
(the running active-host count before churn and growth are applied),
though not in general by the active_hosts field recorded in the same
record, which is already churned. -/
theorem C7_events_bounded (c : SimulationConfig) (months : ℤ) (hc : ValidConfig c)
    (i : ℕ) (r : MonthlyMetrics) (h : (run_simulation c months)[i]? = some r) :
    0 ≤ r.events_created ∧ r.events_created ≤ (stateAt c i).active_hosts := by
  rw [run_simulation_getElem c months i r h]
  have hA := stateAt_active_nonneg c hc i
  exact ⟨pyInt_mul_nonneg hA hc.events_rate_nonneg,
    pyInt_mul_le hA hc.events_rate_nonneg hc.events_rate_le_one⟩

/-- Witness for C7: the default configuration in month 1 creates 40
events out of 50 entering active hosts. -/
theorem C7_events_bounded_witness :
    (run_simulation baseConfig 1)[0]?.map MonthlyMetrics.events_created = some 40 ∧
    (0 : ℤ) ≤ 40 ∧ (40 : ℤ) ≤ (stateAt baseConfig 0).active_hosts := by
  have m0 : (run_simulation baseConfig 1)[0]?.map MonthlyMetrics.events_created =
      some 40 := by
    rw [run_simulation_one]
    norm_num [simStep, initState, baseConfig, pyInt_eq]
  refine ⟨m0, by norm_num, ?_⟩
  cases h0 : (run_simulation baseConfig 1)[0]? with
  | none => rw [h0] at m0; simp at m0
  | some r =>
    have hb := (C7_events_bounded baseConfig 1 validConfig_base 0 r h0).2
    rwa [map_some_field h0 m0] at hb

lemma simStep_zero_state (c : SimulationConfig) (month : ℤ) :
    (simStep c month ⟨0, 0, 0, 0⟩).2 = ⟨0, 0, 0, 0⟩ := by
  simp [simStep, pyInt_zero]

lemma simStep_zero_record (c : SimulationConfig) (month : ℤ) :
    (simStep c month ⟨0, 0, 0, 0⟩).1.events_created = 0 ∧
    (simStep c month ⟨0, 0, 0, 0⟩).1.premium_upgrades = 0 ∧
    (simStep c month ⟨0, 0, 0, 0⟩).1.revenue_gbp = 0 ∧
    (simStep c month ⟨0, 0, 0, 0⟩).1.cumulative_revenue_gbp = 0 ∧
    (simStep c month ⟨0, 0, 0, 0⟩).1.viral_coefficient = 0 := by
  refine ⟨?_, ?_, ?_, ?_, ?_⟩ <;> simp [simStep, pyInt_zero]

lemma stateAt_zero (c : SimulationConfig) (h : c.initial_hosts = 0) :
    ∀ n : ℕ, stateAt c n = ⟨0, 0, 0, 0⟩
  | 0 => by simp [stateAt, initState, h]
  | n + 1 => by rw [stateAt, stateAt_zero c h n, simStep_zero_state]

/-- C8. With zero initial hosts every record of the growth simulation
reports zero events, zero upgrades, zero revenue, zero cumulative
revenue and viral coefficient 0, whatever the other parameters are. -/
theorem C8_zero_initial_hosts (c : SimulationConfig) (months : ℤ)
    (h0 : c.initial_hosts = 0) (i : ℕ) (r : MonthlyMetrics)
    (h : (run_simulation c months)[i]? = some r) :
    r.events_created = 0 ∧ r.premium_upgrades = 0 ∧ r.revenue_gbp = 0 ∧
    r.cumulative_revenue_gbp = 0 ∧ r.viral_coefficient = 0 := by
  rw [run_simulation_getElem c months i r h, stateAt_zero c h0 i]
  exact simStep_zero_record c _

/-- Witness for C8: the zero-host configuration, month 2. -/
theorem C8_zero_initial_hosts_witness :
    (run_simulation zeroConfig 2)[1]?.map
      (fun r => (r.events_created, r.premium_upgrades, r.revenue_gbp,
        r.cumulative_revenue_gbp, r.viral_coefficient)) =
      some (0, 0, 0, 0, 0) := by
  cases h1 : (run_simulation zeroConfig 2)[1]? with
  | none =>
    have hl : (run_simulation zeroConfig 2).length = 2 := run_simulation_length zeroConfig 2
    rw [List.getElem?_eq_none_iff] at h1
    omega
  | some r =>
    have h8 := C8_zero_initial_hosts zeroConfig 2 rfl 1 r h1
    simp only [Option.map_some', Option.some.injEq]
    rw [h8.1, h8.2.1, h8.2.2.1, h8.2.2.2.1, h8.2.2.2.2]

/-- C9. The scenario selector of run_gtm_simulation accepts exactly
the strings low, mid and high (every other string hits the KeyError of
the dict lookup, modelled as none) and only selects which of the three
tiktok_monthly_installs presets drives the run, so two scenarios whose
selected preset values coincide give identical output. -/
theorem C9_scenario_selector (g : GTMConfig) (months : ℤ) :
    (∀ s : String, s ≠ "low" → s ≠ "mid" → s ≠ "high" →
      run_gtm_simulation g months s = none) ∧
    run_gtm_simulation g months "low" =
      some (gtmRun g months g.tiktok_monthly_installs_low) ∧
    run_gtm_simulation g months "mid" =
      some (gtmRun g months g.tiktok_monthly_installs_mid) ∧
    run_gtm_simulation g months "high" =
      some (gtmRun g months g.tiktok_monthly_installs_high) ∧
    (∀ (s1 s2 : String) (v : ℤ),
      tiktokInstalls g s1 = some v → tiktokInstalls g s2 = some v →
      run_gtm_simulation g months s1 = run_gtm_simulation g months s2) := by
  refine ⟨?_, rfl, rfl, rfl, ?_⟩
  · intro s hl hm hh
    unfold run_gtm_simulation tiktokInstalls
    rw [if_neg hl, if_neg hm, if_neg hh]
    rfl
  · intro s1 s2 v h1 h2
    unfold run_gtm_simulation
    rw [h1, h2]

/-- A GTMConfig whose low preset equals its mid preset (200). -/
def scenarioConfig : GTMConfig := { tiktok_monthly_installs_low := 200 }

/-- Witness for C9: an invalid selector fails, and with equal low and
mid presets the two scenarios coincide. -/
theorem C9_scenario_selector_witness :
    run_gtm_simulation scenarioConfig 3 "nope" = none ∧
    run_gtm_simulation scenarioConfig 3 "low" =
      run_gtm_simulation scenarioConfig 3 "mid" := by
  have h := C9_scenario_selector scenarioConfig 3
  exact ⟨h.1 "nope" (by decide) (by decide) (by decide),
    h.2.2.2.2 "low" "mid" 200 rfl rfl⟩

lemma runFrom_take_cum (c : SimulationConfig) :
    ∀ (n : ℕ) (st : SimState) (month : ℤ) (i : ℕ) (r : MonthlyMetrics),
      (runFrom c st month n)[i]? = some r →
      r.cumulative_revenue_gbp = st.cumulative_revenue +
        (((runFrom c st month n).take (i + 1)).map MonthlyMetrics.revenue_gbp).sum := by
  intro n
  induction n with
  | zero => intro st month i r h; simp [runFrom] at h
  | succ n ih =>
    intro st month i r h
    simp only [runFrom] at h ⊢
    match i with
    | 0 =>
      simp only [List.getElem?_cons_zero, Option.some.injEq] at h
      subst h
      simp only [List.take_succ_cons, List.take_zero, List.map_cons, List.map_nil,
        List.sum_cons, List.sum_nil, add_zero]
      rfl
    | i + 1 =>
      simp only [List.getElem?_cons_succ] at h
      have hrec := ih (simStep c month st).2 (month + 1) i r h
      rw [hrec]
      rw [List.take_succ_cons, List.map_cons, List.sum_cons]
      have hcum : (simStep c month st).2.cumulative_revenue =
          st.cumulative_revenue + (simStep c month st).1.revenue_gbp := rfl
      rw [hcum]
      ring

lemma gtmRunFrom_take_cum (g : GTMConfig) (ti : ℤ) :
    ∀ (n : ℕ) (st : GTMState) (month : ℤ) (i : ℕ) (r : MonthData),
      (gtmRunFrom g ti st month n)[i]? = some r →
      r.cumulative_revenue = st.cumulative_revenue +
        (((gtmRunFrom g ti st month n).take (i + 1)).map MonthData.revenue).sum := by
  intro n
  induction n with
  | zero => intro st month i r h; simp [gtmRunFrom] at h
  | succ n ih =>
    intro st month i r h
    simp only [gtmRunFrom] at h ⊢
    match i with
    | 0 =>
      simp only [List.getElem?_cons_zero, Option.some.injEq] at h
      subst h
      simp only [List.take_succ_cons, List.take_zero, List.map_cons, List.map_nil,
        List.sum_cons, List.sum_nil, add_zero]
      rfl
    | i + 1 =>
      simp only [List.getElem?_cons_succ] at h
      have hrec := ih (gtmStep g ti month st).2 (month + 1) i r h
      rw [hrec]
      rw [List.take_succ_cons, List.map_cons, List.sum_cons]
      have hcum : (gtmStep g ti month st).2.cumulative_revenue =
          st.cumulative_revenue + (gtmStep g ti month st).1.revenue := rfl
      rw [hcum]
      ring

/-- C10. In both simulations the cumulative-revenue field of the
record at 0-based index i equals the sum of the revenue fields of the
records up to and including index i (a prefix sum). -/
theorem C10_cumulative_prefix_sum :
    (∀ (c : SimulationConfig) (months : ℤ) (i : ℕ) (r : MonthlyMetrics),
      (run_simulation c months)[i]? = some r →
      r.cumulative_revenue_gbp =
        (((run_simulation c months).take (i + 1)).map MonthlyMetrics.revenue_gbp).sum) ∧
    (∀ (g : GTMConfig) (months : ℤ) (s : String) (l : List MonthData)
      (i : ℕ) (r : MonthData),
      run_gtm_simulation g months s = some l → l[i]? = some r →
      r.cumulative_revenue = ((l.take (i + 1)).map MonthData.revenue).sum) := by
  constructor
  · intro c months i r h
    have hx := runFrom_take_cum c months.toNat (initState c) 1 i r h
    rw [hx, show (initState c).cumulative_revenue = 0 from rfl, zero_add]
    rfl
  · intro g months s l i r hl hr
    obtain ⟨ti, -, rfl⟩ := run_gtm_simulation_eq g months s l hl
    have hx := gtmRunFrom_take_cum g ti months.toNat initGTMState 1 i r hr
    rw [hx, show initGTMState.cumulative_revenue = 0 from rfl, zero_add]
    rfl

lemma gtmRun_one (g : GTMConfig) (ti : ℤ) :
    gtmRun g 1 ti = [(gtmStep g ti 1 initGTMState).1] := rfl

/-- Witness for C10: concrete prefix sums at month 2 of the growth
simulation and month 1 of the GTM simulation. -/
theorem C10_cumulative_prefix_sum_witness :
    (run_simulation baseConfig 2)[1]?.map MonthlyMetrics.cumulative_revenue_gbp =
      some (18377/100) ∧
    (((run_simulation baseConfig 2).take 2).map MonthlyMetrics.revenue_gbp).sum =
      (18377/100 : ℚ) ∧
    (gtmRun baseGTMConfig 1 200)[0]?.map MonthData.cumulative_revenue =
      some (15181/100) ∧
    (((gtmRun baseGTMConfig 1 200).take 1).map MonthData.revenue).sum =
      (15181/100 : ℚ) := by
  have m1 : (run_simulation baseConfig 2)[1]?.map MonthlyMetrics.cumulative_revenue_gbp =
      some (18377/100) := by
    rw [run_simulation_two]
    norm_num [simStep, initState, baseConfig, pyInt_eq]
  have mg : (gtmRun baseGTMConfig 1 200)[0]?.map MonthData.cumulative_revenue =
      some (15181/100) := by
    rw [gtmRun_one]
    norm_num [gtmStep, initGTMState, baseGTMConfig, pyInt_eq]
  refine ⟨m1, ?_, mg, ?_⟩
  · cases h1 : (run_simulation baseConfig 2)[1]? with
    | none => rw [h1] at m1; simp at m1
    | some r =>
      have hx := C10_cumulative_prefix_sum.1 baseConfig 2 1 r h1
      rw [← hx]
      exact map_some_field h1 m1
  · cases h0 : (gtmRun baseGTMConfig 1 200)[0]? with
    | none => rw [h0] at mg; simp at mg
    | some r =>
      have hl : run_gtm_simulation baseGTMConfig 1 "mid" =
          some (gtmRun baseGTMConfig 1 200) := rfl
      have hx := C10_cumulative_prefix_sum.2 baseGTMConfig 1 "mid" _ 0 r hl h0
      rw [← hx]
      exact map_some_field h0 mg

end Momento
